import Mathlib

/-
  Shallow embedding of the nochoices optional-value library.

  The library is a TypeScript Option/Maybe abstraction (src/src/option.ts,
  src/src/some.ts, src/src/none.ts, src/src/optional-value.ts,
  src/src/flatten.ts).  An `Option<T>` wraps a single private field `value`
  holding an `OptionalValue<T>` state, whose two concrete subclasses are
  `Some<T>` (present, holds a value) and `None<T>` (absent).  Every operation
  dispatches on that state; the mutators reassign the private field.

  Embedding conventions:
  - subclass dispatch becomes pattern matching on an inductive with the two
    constructors `Some` and `None`;
  - throwing methods return `Except JsError _`;
  - methods that mutate the receiver become functions returning the pair
    (returned result, new receiver state);
  - host-language callbacks that may have side effects are additionally
    embedded in traced form: a callback threads an explicit state `S`
    through each of its invocations, exactly at the call sites the source
    has, so that non-invocation is provable (state unchanged for every
    callback).
-/

namespace Nochoices

/-- Embedding of the JavaScript `Error` objects the library deals with: an
error is identified by its message string. -/
structure JsError where
  message : String

/-- The internal two-state representation: the `OptionalValue` class hierarchy
of src/src/optional-value.ts with its two concrete subclasses `Some`
(src/src/some.ts) and `None` (src/src/none.ts). -/
inductive OptionalValue (T : Type) where
  | Some (value : T)
  | None

/-- The `Option` wrapper class (src/src/option.ts): a single private field
`value` holding the current state; mutating operations reassign this field. -/
structure Option (T : Type) where
  value : OptionalValue T

/-- Host-language nullable values: a proper value of type `T`, or `null`, or
`undefined`. -/
inductive Nullable (T : Type) where
  | value (t : T)
  | null
  | undefined

variable {T U V W M S : Type}

/-- `Some.isPresent` returns `true` (src/src/some.ts 12-14); `None.isPresent`
returns `false` (src/src/none.ts 6-8). -/
def OptionalValue.isPresent : OptionalValue T → Bool
  | .Some _ => true
  | .None => false

/-- `Some.isAbsent` returns `false` (src/src/some.ts 16-18); `None.isAbsent`
returns `true` (src/src/none.ts 10-12). -/
def OptionalValue.isAbsent : OptionalValue T → Bool
  | .Some _ => false
  | .None => true

/-- `Some.unwrap` returns the value (src/src/some.ts 20-22); `None.unwrap`
throws a fresh Error with message "unwrap over None." (src/src/none.ts 14-16). -/
def OptionalValue.unwrap : OptionalValue T → Except JsError T
  | .Some v => Except.ok v
  | .None => Except.error (JsError.mk "unwrap over None.")

/-- `Some.expect` returns the value ignoring the error argument
(src/src/some.ts 37-39); `None.expect` throws exactly the supplied error
(src/src/none.ts 26-28). -/
def OptionalValue.expect : OptionalValue T → JsError → Except JsError T
  | .Some v, _ => Except.ok v
  | .None, err => Except.error err

/-- `Some.unwrapOr` returns the value ignoring the default (src/src/some.ts
41-43); `None.unwrapOr` returns the default (src/src/none.ts 30-32). -/
def OptionalValue.unwrapOr : OptionalValue T → T → T
  | .Some v, _ => v
  | .None, d => d

/-- `Some.map` applies `fn` to the value and wraps the result
(src/src/some.ts 24-27); `None.map` returns `Option.None()` without touching
`fn` (src/src/none.ts 18-20). -/
def OptionalValue.map : OptionalValue T → (T → M) → Option M
  | .Some v, fn => Option.mk (OptionalValue.Some (fn v))
  | .None, _ => Option.mk OptionalValue.None

/-- `Some.filter` evaluates the predicate on the value and keeps or drops it
(src/src/some.ts 29-35); `None.filter` returns `Option.None()` without
touching the predicate (src/src/none.ts 22-24). -/
def OptionalValue.filter : OptionalValue T → (T → Bool) → Option T
  | .Some v, fn =>
      if fn v then Option.mk (OptionalValue.Some v) else Option.mk OptionalValue.None
  | .None, _ => Option.mk OptionalValue.None

/-- Second leg of the zip double dispatch.  The receiver is the second
operand; the argument is the value held by the first operand, which is known
to be a `Some`.  `Some.zipWithSome` pairs the two values, first operand first
(src/src/some.ts 61-63); `None.zipWithSome` returns `Option.None()`
(src/src/none.ts 46-48). -/
def OptionalValue.zipWithSome : OptionalValue U → T → Option (T × U)
  | .Some u, t => Option.mk (OptionalValue.Some (t, u))
  | .None, _ => Option.mk OptionalValue.None

/-- `Some.zip` dispatches to `another.zipWithSome(this)` (src/src/some.ts
57-59); `None.zip` returns `Option.None()` (src/src/none.ts 42-44). -/
def OptionalValue.zip : OptionalValue T → OptionalValue U → Option (T × U)
  | .Some t, b => b.zipWithSome t
  | .None, _ => Option.mk OptionalValue.None

/-- `Some.and` returns the argument option itself (src/src/some.ts 73-75);
`None.and` returns `Option.None()` (src/src/none.ts 58-60). -/
def OptionalValue.and : OptionalValue T → Option V → Option V
  | .Some _, another => another
  | .None, _ => Option.mk OptionalValue.None

/-- `Some.or` returns `self`, the wrapper that delegated to it
(src/src/some.ts 77-79); `None.or` returns the other option
(src/src/none.ts 62-64). -/
def OptionalValue.or : OptionalValue T → Option T → Option T → Option T
  | .Some _, self, _ => self
  | .None, _, another => another

/-- Second leg of the xor double dispatch when the first operand was absent:
`Some.xorWithNone` rewraps its value (src/src/some.ts 85-87);
`None.xorWithNone` returns `Option.None()` (src/src/none.ts 70-72). -/
def OptionalValue.xorWithNone : OptionalValue T → Option T
  | .Some v => Option.mk (OptionalValue.Some v)
  | .None => Option.mk OptionalValue.None

/-- Second leg of the xor double dispatch when the first operand was present
with the given value: `Some.xorWithSome` returns `Option.None()`
(src/src/some.ts 89-91); `None.xorWithSome` rewraps the first operand value
(src/src/none.ts 74-76). -/
def OptionalValue.xorWithSome : OptionalValue T → T → Option T
  | .Some _, _ => Option.mk OptionalValue.None
  | .None, t => Option.mk (OptionalValue.Some t)

/-- `Some.xor` dispatches to `another.xorWithSome(this)` (src/src/some.ts
81-83); `None.xor` dispatches to `another.xorWithNone()` (src/src/none.ts
66-68). -/
def OptionalValue.xor : OptionalValue T → OptionalValue T → Option T
  | .Some v, b => b.xorWithSome v
  | .None, b => b.xorWithNone

/-- `Some.getOrInsert` returns `this`, ignoring the argument
(src/src/some.ts 101-103); `None.getOrInsert` returns a fresh `Some` holding
the argument (src/src/none.ts 86-88). -/
def OptionalValue.getOrInsert : OptionalValue T → T → OptionalValue T
  | .Some v, _ => OptionalValue.Some v
  | .None, v => OptionalValue.Some v

/-- `Some.getOrInsertWith` returns `this`, ignoring the generator
(src/src/some.ts 105-107); `None.getOrInsertWith` calls the generator and
wraps the result in a fresh `Some` (src/src/none.ts 90-92). -/
def OptionalValue.getOrInsertWith : OptionalValue T → (Unit → T) → OptionalValue T
  | .Some v, _ => OptionalValue.Some v
  | .None, fn => OptionalValue.Some (fn ())

/-- `Some.takeValue` rewraps its value in a new option (src/src/some.ts
109-111); `None.takeValue` returns `Option.None()` (src/src/none.ts 94-96). -/
def OptionalValue.takeValue : OptionalValue T → Option T
  | .Some v => Option.mk (OptionalValue.Some v)
  | .None => Option.mk OptionalValue.None

/-- The static factory `Option.Some` (src/src/option.ts 81-83): wraps the
value in a `Some` state with no nullability normalisation at all. -/
def Option.Some (v : T) : Option T :=
  Option.mk (OptionalValue.Some v)

/-- The static factory `Option.None` (src/src/option.ts 98-100). -/
def Option.None : Option T :=
  Option.mk OptionalValue.None

/-- The static factory `Option.fromNullable` (src/src/option.ts 119-125):
`null` and `undefined` map to `None()`, anything else to `Some(param)`. -/
def Option.fromNullable : Nullable T → Option T
  | .value t => Option.Some t
  | .null => Option.None
  | .undefined => Option.None

/-- `Option.isNone` delegates to the state (src/src/option.ts 141-143). -/
def Option.isNone (o : Option T) : Bool :=
  o.value.isAbsent

/-- `Option.isSome` delegates to the state (src/src/option.ts 158-160). -/
def Option.isSome (o : Option T) : Bool :=
  o.value.isPresent

/-- `Option.unwrap` delegates to the state (src/src/option.ts 210-212). -/
def Option.unwrap (o : Option T) : Except JsError T :=
  o.value.unwrap

/-- `Option.expect` delegates to the state (src/src/option.ts 299-301). -/
def Option.expect (o : Option T) (err : JsError) : Except JsError T :=
  o.value.expect err

/-- `Option.unwrapOr` delegates to the state (src/src/option.ts 230-232). -/
def Option.unwrapOr (o : Option T) (d : T) : T :=
  o.value.unwrapOr d

/-- `Option.map` delegates to the state (src/src/option.ts 181-183). -/
def Option.map (o : Option T) (fn : T → M) : Option M :=
  o.value.map fn

/-- `Option.filter` delegates to the state (src/src/option.ts 278-280). -/
def Option.filter (o : Option T) (fn : T → Bool) : Option T :=
  o.value.filter fn

/-- `Option.zip` delegates to the two states (src/src/option.ts 386-388). -/
def Option.zip (o : Option T) (another : Option U) : Option (T × U) :=
  o.value.zip another.value

/-- `Option.and` delegates to the state, passing the other wrapper whole
(src/src/option.ts 439-441). -/
def Option.and (o : Option T) (another : Option V) : Option V :=
  o.value.and another

/-- `Option.or` delegates to the state, passing `this` itself as `self`
(src/src/option.ts 466-468). -/
def Option.or (o : Option T) (another : Option T) : Option T :=
  o.value.or o another

/-- `Option.xor` delegates to the two states (src/src/option.ts 492-494). -/
def Option.xor (o : Option T) (another : Option T) : Option T :=
  o.value.xor another.value

/-- The method `Some.flatten` at a payload type that IS a nested option
(src/src/some.ts 49-55): the test `value instanceof Option` succeeds and the
inner option itself is returned; `None.flatten` returns `Option.None()`
(src/src/none.ts 38-40).  Delegation from the wrapper at src/src/option.ts
321-323. -/
def Option.flattenNested (o : Option (Option U)) : Option U :=
  match o.value with
  | .Some inner => inner
  | .None => Option.None

/-- The method `Some.flatten` at a payload type that is NOT an option
(src/src/some.ts 49-55): the test `value instanceof Option` fails and the
value is rewrapped unchanged; `None.flatten` returns `Option.None()`
(src/src/none.ts 38-40).  Delegation from the wrapper at src/src/option.ts
321-323. -/
def Option.flattenPlain (o : Option T) : Option T :=
  match o.value with
  | .Some v => Option.Some v
  | .None => Option.None

/-- The free function `flatten` (src/src/flatten.ts 32-34):
`opt.unwrapOr(Option.None())`. -/
def flatten (opt : Option (Option T)) : Option T :=
  opt.unwrapOr Option.None

/-- `Option.insert` (src/src/option.ts 553-556): reassigns the state to a
fresh `Some` and returns `this`; since the returned instance is the mutated
receiver, the embedding returns the single new state. -/
def Option.insert (_o : Option T) (v : T) : Option T :=
  Option.mk (OptionalValue.Some v)

/-- `Option.getOrInsert` (src/src/option.ts 578-581): reassigns the state to
`value.getOrInsert(v)` and then returns `this.unwrap()`.  The embedding
returns (returned result, new receiver state). -/
def Option.getOrInsert (o : Option T) (v : T) : Except JsError T × Option T :=
  let o2 := Option.mk (o.value.getOrInsert v)
  (o2.unwrap, o2)

/-- `Option.getOrInsertWith` (src/src/option.ts 606-609): reassigns the state
to `value.getOrInsertWith(fn)` and then returns `this.unwrap()`.  The
embedding returns (returned result, new receiver state). -/
def Option.getOrInsertWith (o : Option T) (fn : Unit → T) : Except JsError T × Option T :=
  let o2 := Option.mk (o.value.getOrInsertWith fn)
  (o2.unwrap, o2)

/-- `Option.take` (src/src/option.ts 631-635): computes `value.takeValue()`,
resets the state to a fresh `None`, and returns the taken option.  The
embedding returns (returned option, new receiver state). -/
def Option.take (o : Option T) : Option T × Option T :=
  (o.value.takeValue, Option.mk OptionalValue.None)

/-- `Option.replace` (src/src/option.ts 653-657): saves the old state,
reassigns the state to a fresh `Some` of the new value, and returns a new
wrapper around the old state.  The embedding returns (returned option, new
receiver state). -/
def Option.replace (o : Option T) (v : T) : Option T × Option T :=
  (Option.mk o.value, Option.mk (OptionalValue.Some v))

/-- `Option.takeIf` (src/src/option.ts 826-828):
`this.filter(param).andThen(() => this.take())`.  When the filtered option is
present the `andThen` callback runs `this.take()`, mutating the receiver;
otherwise `andThen` returns `None()` and the receiver is untouched.  The
embedding returns (returned option, new receiver state). -/
def Option.takeIf (o : Option T) (p : T → Bool) : Option T × Option T :=
  match (o.filter p).value with
  | .Some _ => o.take
  | .None => (Option.None, o)

/-
  Traced readings of the callback-taking operations.  A callback threads an
  explicit state `S` through each invocation, exactly at the call sites the
  source has, so that non-invocation of the callback is provable as the state
  being left unchanged for every possible callback.
-/

/-- Traced `map`: `Some.map` calls `fn` once on the value (src/src/some.ts
24-27); `None.map` never calls it (src/src/none.ts 18-20). -/
def OptionalValue.mapT : OptionalValue T → (S → T → S × M) → S → S × Option M
  | .Some v, fn, s =>
      let r := fn s v
      (r.1, Option.mk (OptionalValue.Some r.2))
  | .None, _, s => (s, Option.mk OptionalValue.None)

/-- Traced `filter`: `Some.filter` calls the predicate once on the value
(src/src/some.ts 29-35); `None.filter` never calls it (src/src/none.ts
22-24). -/
def OptionalValue.filterT : OptionalValue T → (S → T → S × Bool) → S → S × Option T
  | .Some v, fn, s =>
      let r := fn s v
      if r.2 then (r.1, Option.mk (OptionalValue.Some v))
      else (r.1, Option.mk OptionalValue.None)
  | .None, _, s => (s, Option.mk OptionalValue.None)

/-- Traced second leg of the zipWith double dispatch:
`Some.zipWithWithSome` calls the combinator once, first operand value first
(src/src/some.ts 69-71); `None.zipWithWithSome` never calls it
(src/src/none.ts 54-56). -/
def OptionalValue.zipWithWithSomeT :
    OptionalValue U → T → (S → T → U → S × V) → S → S × Option V
  | .Some u, t, fn, s =>
      let r := fn s t u
      (r.1, Option.mk (OptionalValue.Some r.2))
  | .None, _, _, s => (s, Option.mk OptionalValue.None)

/-- Traced `zipWith`: `Some.zipWith` dispatches to
`another.zipWithWithSome(this, fn)` (src/src/some.ts 65-67); `None.zipWith`
returns `Option.None()` without touching `fn` (src/src/none.ts 50-52). -/
def OptionalValue.zipWithT :
    OptionalValue T → OptionalValue U → (S → T → U → S × V) → S → S × Option V
  | .Some t, b, fn, s => b.zipWithWithSomeT t fn s
  | .None, _, _, s => (s, Option.mk OptionalValue.None)

/-- Traced `getOrInsertWith` at the state level: `Some.getOrInsertWith`
returns `this`, never calling the generator (src/src/some.ts 105-107);
`None.getOrInsertWith` calls the generator once and wraps its result
(src/src/none.ts 90-92). -/
def OptionalValue.getOrInsertWithT :
    OptionalValue T → (S → S × T) → S → S × OptionalValue T
  | .Some v, _, s => (s, OptionalValue.Some v)
  | .None, fn, s =>
      let r := fn s
      (r.1, OptionalValue.Some r.2)

/-- Traced `Option.map`, delegating as src/src/option.ts 181-183 does. -/
def Option.mapT (o : Option T) (fn : S → T → S × M) (s : S) : S × Option M :=
  o.value.mapT fn s

/-- Traced `Option.filter`, delegating as src/src/option.ts 278-280 does. -/
def Option.filterT (o : Option T) (fn : S → T → S × Bool) (s : S) : S × Option T :=
  o.value.filterT fn s

/-- Traced `Option.zipWith`, delegating to the state dispatch. -/
def Option.zipWithT (o : Option T) (another : Option U)
    (fn : S → T → U → S × V) (s : S) : S × Option V :=
  o.value.zipWithT another.value fn s

/-- Traced `Option.getOrInsertWith` (src/src/option.ts 606-609): reassigns
the state and returns `this.unwrap()`.  The embedding returns
(callback state, returned result, new receiver state). -/
def Option.getOrInsertWithT (o : Option T) (fn : S → S × T) (s : S) :
    S × Except JsError T × Option T :=
  let r := o.value.getOrInsertWithT fn s
  let o2 := Option.mk r.2
  (r.1, o2.unwrap, o2)

/-- Modelled from the spec: the concrete `Some`/`None` implementations of
`equals` are not under src/ (only the abstract declaration
`OptionalValue.equals` and the delegation `Option.equals` at
src/src/option.ts 850-852 are).  Spec: both absent are equal; both present
delegate to the wrapped values own equality, embedded as `BEq`; one present
and one absent are not equal. -/
def OptionalValue.equals [BEq T] : OptionalValue T → OptionalValue T → Bool
  | .None, .None => true
  | .Some a, .Some b => a == b
  | .Some _, .None => false
  | .None, .Some _ => false

/-- Modelled from the spec: the concrete `Some`/`None` implementations of
`equalsBy` are not under src/ (only the abstract declaration
`OptionalValue.equalsBy` and the delegation `Option.equalsBy` at
src/src/option.ts 854-856 are).  Spec: same shape as `equals` but when both
are present the caller-supplied comparator decides, receiver value first. -/
def OptionalValue.equalsBy : OptionalValue T → OptionalValue T → (T → T → Bool) → Bool
  | .None, .None, _ => true
  | .Some a, .Some b, cmp => cmp a b
  | .Some _, .None, _ => false
  | .None, .Some _, _ => false

/-- Modelled from the spec, traced: the comparator of `equalsBy` threads an
explicit state through its invocations; it is called exactly once in the
both-present case and never otherwise. -/
def OptionalValue.equalsByT :
    OptionalValue T → OptionalValue T → (S → T → T → S × Bool) → S → S × Bool
  | .None, .None, _, s => (s, true)
  | .Some a, .Some b, cmp, s => cmp s a b
  | .Some _, .None, _, s => (s, false)
  | .None, .Some _, _, s => (s, false)

/-- `Option.equals` delegates to the two states (src/src/option.ts 850-852). -/
def Option.equals [BEq T] (o : Option T) (another : Option T) : Bool :=
  o.value.equals another.value

/-- `Option.equalsBy` delegates to the two states (src/src/option.ts
854-856). -/
def Option.equalsBy (o : Option T) (another : Option T) (cmp : T → T → Bool) : Bool :=
  o.value.equalsBy another.value cmp

/-- Traced `Option.equalsBy`, delegating to the two states. -/
def Option.equalsByT (o : Option T) (another : Option T)
    (cmp : S → T → T → S × Bool) (s : S) : S × Bool :=
  o.value.equalsByT another.value cmp s

/-
  Dynamic (untyped) host values, used to analyse the free function `flatten`
  outside the static type discipline: a runtime value is either a primitive
  number (not an Option instance) or an Option object, identified with its
  internal state.  The `value instanceof Option` test of src/src/some.ts 50
  succeeds exactly on the `.opt` constructor.
-/

/-- Dynamic host values: a primitive, or an Option object. -/
inductive JsVal where
  | num (n : Nat)
  | opt (o : OptionalValue JsVal)

/-- Dynamic reading of the free function `flatten` (src/src/flatten.ts
32-34): `opt.unwrapOr(Option.None())` evaluated on an arbitrary runtime
option state; for a present option this returns the bare wrapped value,
whatever it is. -/
def flattenFreeDyn (o : OptionalValue JsVal) : JsVal :=
  o.unwrapOr (JsVal.opt OptionalValue.None)

/-- Dynamic reading of the method `flatten` (src/src/some.ts 49-55,
src/src/none.ts 38-40): present and wrapping an Option object returns that
inner option; present and wrapping a primitive rewraps it; absent stays
absent. -/
def flattenMethodDyn : OptionalValue JsVal → OptionalValue JsVal
  | .Some (JsVal.opt inner) => inner
  | .Some (JsVal.num n) => OptionalValue.Some (JsVal.num n)
  | .None => OptionalValue.None

/-
  Claim theorems.
-/

/-- Helper: on either of the two states, `isAbsent` is the boolean negation
of `isPresent`, hence `isNone` is the negation of `isSome` on every wrapper. -/
theorem dichotomy_aux (o : Option T) : o.isNone = !o.isSome := by
  obtain ⟨v⟩ := o
  cases v <;> rfl

/-- C1: for every value v, `Some(v).unwrap()` returns v and `Some(v).expect(e)`
returns v; `None().unwrap()` throws the fixed Error with message
"unwrap over None." and `None().expect(e)` throws exactly the supplied error
object e, unmodified. -/
theorem unwrap_expect_spec (v : T) (e : JsError) :
    (Option.Some v).unwrap = Except.ok v
    ∧ (Option.Some v).expect e = Except.ok v
    ∧ (Option.None : Option T).unwrap = Except.error (JsError.mk "unwrap over None.")
    ∧ (Option.None : Option T).expect e = Except.error e :=
  ⟨rfl, rfl, rfl, rfl⟩

/-- C2: every Option instance is in exactly one of the two states at every
observation point: `isNone` always equals the negation of `isSome`, in
particular on every wrapper state reachable at all (first conjunct, which
covers every factory and combinator result), and on the receiver states left
behind by `insert`, `getOrInsert`, `getOrInsertWith`, `take`, `takeIf` and
`replace` as well as on their returned options. -/
theorem state_dichotomy (o : Option T) (v : T) (fn : Unit → T) (p : T → Bool) :
    (∀ o2 : Option T, o2.isNone = !o2.isSome)
    ∧ (o.insert v).isNone = !(o.insert v).isSome
    ∧ (o.getOrInsert v).2.isNone = !(o.getOrInsert v).2.isSome
    ∧ (o.getOrInsertWith fn).2.isNone = !(o.getOrInsertWith fn).2.isSome
    ∧ (o.take).1.isNone = !(o.take).1.isSome
    ∧ (o.take).2.isNone = !(o.take).2.isSome
    ∧ (o.takeIf p).1.isNone = !(o.takeIf p).1.isSome
    ∧ (o.takeIf p).2.isNone = !(o.takeIf p).2.isSome
    ∧ (o.replace v).1.isNone = !(o.replace v).1.isSome
    ∧ (o.replace v).2.isNone = !(o.replace v).2.isSome :=
  ⟨fun o2 => dichotomy_aux o2, dichotomy_aux _, dichotomy_aux _, dichotomy_aux _,
    dichotomy_aux _, dichotomy_aux _, dichotomy_aux _, dichotomy_aux _,
    dichotomy_aux _, dichotomy_aux _⟩

/-- C3: for map, filter, zip and zipWith, an absent receiver (or, for
zip/zipWith, an absent operand on either side) yields an absent result and
the supplied callback is never invoked (the threaded callback state is
returned unchanged, for every possible callback); when both operands of zip
are present the result holds the pair with the receiver value first. -/
theorem absence_propagation (x : T) (y : U) (b : Option U)
    (fn : S → T → S × M) (p : S → T → S × Bool) (zf : S → T → U → S × V) (s : S) :
    (Option.None : Option T).mapT fn s = (s, Option.None)
    ∧ (Option.None : Option T).filterT p s = (s, Option.None)
    ∧ (Option.None : Option T).zip b = (Option.None : Option (T × U))
    ∧ (Option.Some x).zip (Option.None : Option U) = Option.None
    ∧ (Option.None : Option T).zipWithT b zf s = (s, Option.None)
    ∧ (Option.Some x).zipWithT (Option.None : Option U) zf s = (s, Option.None)
    ∧ (Option.Some x).zip (Option.Some y) = Option.Some (x, y) :=
  ⟨rfl, rfl, rfl, rfl, rfl, rfl, rfl⟩

/-- C4: `a.and(b)` returns b itself when a is present and an absent option
when a is absent; `a.or(b)` returns a itself when a is present and b when a
is absent; `a.xor(b)` holds the value of the uniquely present operand when
exactly one is present and is absent when both are present or both absent. -/
theorem and_or_xor_table (x y : T) (b : Option U) (c : Option T) :
    (Option.Some x).and b = b
    ∧ (Option.None : Option T).and b = (Option.None : Option U)
    ∧ (Option.Some x).or c = Option.Some x
    ∧ (Option.None : Option T).or c = c
    ∧ (Option.Some x).xor (Option.Some y) = (Option.None : Option T)
    ∧ (Option.Some x).xor Option.None = Option.Some x
    ∧ (Option.None : Option T).xor (Option.Some y) = Option.Some y
    ∧ (Option.None : Option T).xor Option.None = Option.None :=
  ⟨rfl, rfl, rfl, rfl, rfl, rfl, rfl, rfl⟩

/-- C5: `take()` returns a new Option holding the previous value (absent if
the receiver was absent) and leaves the receiver absent; `replace(v)` returns
a new Option holding the previous state and leaves the receiver present with
value v. -/
theorem take_replace_spec (x v : T) :
    (Option.Some x).take = (Option.Some x, Option.None)
    ∧ (Option.None : Option T).take = (Option.None, Option.None)
    ∧ (Option.Some x).replace v = (Option.Some x, Option.Some v)
    ∧ (Option.None : Option T).replace v = (Option.None, Option.Some v) :=
  ⟨rfl, rfl, rfl, rfl⟩

/-- C6: on an absent receiver `getOrInsert(v)` transitions it to present with
v and returns v, and `getOrInsertWith(fn)` invokes fn exactly once (the
callback state advances by exactly one application; with a call counter it
goes from 0 to 1), transitions the receiver to present with the result of fn
and returns it; on a present receiver both return the existing value, leave
the state unchanged and never invoke fn; in every case the returned value is
the value contained in the receiver after the call. -/
theorem getOrInsert_spec (o : Option T) (w v t : T) (fn : S → S × T)
    (g : Unit → T) (s : S) :
    (Option.None : Option T).getOrInsert v = (Except.ok v, Option.Some v)
    ∧ (Option.Some w).getOrInsert v = (Except.ok w, Option.Some w)
    ∧ (o.getOrInsert v).2.unwrap = (o.getOrInsert v).1
    ∧ (Option.Some w).getOrInsertWithT fn s = (s, Except.ok w, Option.Some w)
    ∧ (Option.None : Option T).getOrInsertWithT fn s =
        ((fn s).1, Except.ok (fn s).2, Option.Some (fn s).2)
    ∧ (Option.None : Option T).getOrInsertWithT (fun n => (n + 1, t)) (0 : Nat) =
        (1, Except.ok t, Option.Some t)
    ∧ (Option.Some w).getOrInsertWithT (fun n => (n + 1, t)) (0 : Nat) =
        (0, Except.ok w, Option.Some w)
    ∧ (o.getOrInsertWith g).2.unwrap = (o.getOrInsertWith g).1 :=
  ⟨rfl, rfl, rfl, rfl, rfl, rfl, rfl, rfl⟩

/-- C7: flatten removes exactly one level of nesting: on `Some(Some(v))` it
yields the inner option, whose unwrap gives v even when v is itself an option
(only one level removed per call); on a non-nested `Some(v)` it returns an
option whose unwrap is v, unchanged; on an absent option it yields an absent
option. -/
theorem flatten_method_spec (v : U) (w : W) :
    (Option.Some (Option.Some v)).flattenNested = Option.Some v
    ∧ (Option.Some (Option.Some v)).flattenNested.unwrap = Except.ok v
    ∧ (Option.Some (Option.Some (Option.Some w))).flattenNested
        = Option.Some (Option.Some w)
    ∧ (Option.Some (Option.Some (Option.Some w))).flattenNested.unwrap
        = Except.ok (Option.Some w)
    ∧ (Option.Some v).flattenPlain = Option.Some v
    ∧ (Option.Some v).flattenPlain.unwrap = Except.ok v
    ∧ (Option.None : Option (Option U)).flattenNested = Option.None
    ∧ (Option.None : Option W).flattenPlain = Option.None :=
  ⟨rfl, rfl, rfl, rfl, rfl, rfl, rfl, rfl⟩

/-- C8 counterexample: on the dynamic input `Some(5)` — an option wrapping
the non-option value 5, ill-typed for the free function but reachable in the
untyped host language — the method flatten returns the option `Some(5)`
unchanged while the free function `opt.unwrapOr(Option.None())` returns the
bare primitive 5, which is not an option at all, so the two results do not
agree. -/
theorem flatten_free_dyn_counterexample :
    flattenFreeDyn (OptionalValue.Some (JsVal.num 5)) = JsVal.num 5
    ∧ flattenMethodDyn (OptionalValue.Some (JsVal.num 5))
        = OptionalValue.Some (JsVal.num 5)
    ∧ flattenFreeDyn (OptionalValue.Some (JsVal.num 5))
        ≠ JsVal.opt (flattenMethodDyn (OptionalValue.Some (JsVal.num 5))) :=
  ⟨rfl, rfl, fun h => nomatch h⟩

/-- C8 (amended): for every input of the free function declared type
`Option<Option<T>>` — an absent option, or an option wrapping an inner
option — the free `flatten(opt)` agrees exactly with the method
`opt.flatten()`; on an option wrapping a non-option value, which the free
function type excludes, the two disagree (the method rewraps the value, the
free function returns the bare value). -/
theorem flatten_free_typed_equiv (opt : Option (Option T)) :
    flatten opt = opt.flattenNested := by
  obtain ⟨v⟩ := opt
  cases v <;> rfl

/-- C9: structural equality: `equals` is true when both operands are absent,
false when exactly one is present, and delegates to the wrapped values own
equality when both are present; `equalsBy` has the same shape but consults
the caller-supplied comparator, receiver value first, and consults it only in
the both-present case (threaded comparator state unchanged otherwise, for
every comparator). -/
theorem equals_spec [BEq T] (x y : T) (cmp : T → T → Bool)
    (cmpT : S → T → T → S × Bool) (s : S) :
    (Option.None : Option T).equals Option.None = true
    ∧ (Option.Some x).equals (Option.None : Option T) = false
    ∧ (Option.None : Option T).equals (Option.Some y) = false
    ∧ (Option.Some x).equals (Option.Some y) = (x == y)
    ∧ (Option.None : Option T).equalsBy Option.None cmp = true
    ∧ (Option.Some x).equalsBy (Option.None : Option T) cmp = false
    ∧ (Option.None : Option T).equalsBy (Option.Some y) cmp = false
    ∧ (Option.Some x).equalsBy (Option.Some y) cmp = cmp x y
    ∧ (Option.None : Option T).equalsByT Option.None cmpT s = (s, true)
    ∧ (Option.Some x).equalsByT (Option.None : Option T) cmpT s = (s, false)
    ∧ (Option.None : Option T).equalsByT (Option.Some y) cmpT s = (s, false)
    ∧ (Option.Some x).equalsByT (Option.Some y) cmpT s = cmpT s x y :=
  ⟨rfl, rfl, rfl, rfl, rfl, rfl, rfl, rfl, rfl, rfl, rfl, rfl⟩

/-- C10: the Some factory performs no nullability normalisation: for every
value v, including the null and undefined host values, `Option.Some(v)` is
present and unwraps to v, while `Option.fromNullable(null)` and
`Option.fromNullable(undefined)` are absent (and `fromNullable` of a proper
value is `Some` of it), so the two factories differ in behaviour exactly on
null and undefined. -/
theorem some_vs_fromNullable (u : U) (v : Nullable U) :
    (Option.Some v).isSome = true
    ∧ (Option.Some v).unwrap = Except.ok v
    ∧ (Option.Some (Nullable.null : Nullable U)).isSome = true
    ∧ (Option.Some (Nullable.undefined : Nullable U)).isSome = true
    ∧ Option.fromNullable (Nullable.null : Nullable U) = Option.None
    ∧ Option.fromNullable (Nullable.undefined : Nullable U) = Option.None
    ∧ Option.fromNullable (Nullable.value u) = Option.Some u
    ∧ (Option.Some (Nullable.null : Nullable U)).isSome
        ≠ (Option.fromNullable (Nullable.null : Nullable U)).isSome
    ∧ (Option.Some (Nullable.undefined : Nullable U)).isSome
        ≠ (Option.fromNullable (Nullable.undefined : Nullable U)).isSome :=
  ⟨rfl, rfl, rfl, rfl, rfl, rfl, rfl, fun h => Bool.noConfusion h,
    fun h => Bool.noConfusion h⟩

end Nochoices
